import Mathlib

/-!
Verification of the monitor scheduling and check-execution engine of
`nswi153-monitoring-service` against its natural-language specification.

The embedding below translates the engine's TypeScript source into Lean:

* `src/packages/engine/src/entities/MonitorStatus.ts` — the persisted
  check-outcome record (`MonitorStatus`).
* backend `Monitor` entity — the monitor definition read by the engine.
* `src/packages/engine/src/runners/website-monitor.ts` — `runWebsiteMonitor`
  (keywords compared verbatim), plus the second revision of the same runner
  found in `src/unnamed/part_006` (`runWebsiteMonitorV2`, keywords trimmed
  and blank entries skipped).
* ping runner from `src/unnamed/part_006` — `runPingMonitor`.
* `src/packages/engine/src/index.ts` — `runMonitorCheck`,
  `scheduleMonitor`'s firing callback `runAndReschedule` (both revisions
  present in the source: `runAndReschedule` and `runAndRescheduleV2`), and
  `discoverMonitors`.

Network I/O and wall-clock readings are modelled as explicit parameters
(`ConnResult`, `HttpResult`, start/end timestamps); the store is a function
`String → Except String (Option Monitor)` where `Except.error` models a
thrown/rejected `findOne` and `Except.ok none` models "monitor not found".
-/

/-- Terminal status of a check, `StatusType` in
`src/packages/engine/src/entities/MonitorStatus.ts`: exactly
`succeeded` or `failed`. -/
inductive StatusType where
  | succeeded
  | failed
deriving DecidableEq

/-- The persisted check outcome (`MonitorStatus` entity).  `startTime` is an
`@CreateDateColumn`: TypeORM assigns it the row-insertion timestamp when the
record is persisted; the runners' constructor calls pass only `monitorId`,
`status`, `responseTime` and `error`, so before persistence the field is
unset (`none` here). -/
structure MonitorStatus where
  monitorId : String
  status : StatusType
  responseTime : Nat
  error : Option String
  startTime : Option Nat
deriving DecidableEq

/-- Monitor definition as the engine reads it (backend `Monitor` entity).
`type` is kept as a raw string because the engine must handle unknown types;
`port`, `checkStatus` and `keywords` are the optional variant fields
(`checkStatus?: boolean` collapses to `Bool` since the engine only tests its
truthiness; an absent `keywords` array behaves as the empty list in the
runner's `keywords && keywords.length > 0` guard). -/
structure Monitor where
  id : String
  label : String
  type : String
  periodicity : Nat
  host : String
  port : Option Nat
  url : String
  checkStatus : Bool
  keywords : List String
deriving DecidableEq

/-- Result of one attempted TCP connection (`net.Socket` events in the ping
runner): `connect`, `timeout`, or `error` with the socket error text. -/
inductive ConnResult where
  | connected
  | timedOut
  | errored (msg : String)
deriving DecidableEq

/-- Result of one `fetch` call in the website runner: a thrown/rejected
request (transport failure or abort) with its message, or a response with a
numeric status code and a body text. -/
inductive HttpResult where
  | failure (msg : String)
  | success (statusCode : Nat) (body : String)
deriving DecidableEq

/-- Model of JavaScript whitespace for `String.prototype.trim` on the
characters that occur in monitor keywords. -/
def isWs (c : Char) : Bool :=
  c = ' ' || c = '\t' || c = '\n' || c = '\r'

/-- Model of JavaScript `keyword.trim()`: strip whitespace from both ends. -/
def strTrim (s : String) : String :=
  String.mk (((s.data.dropWhile isWs).reverse.dropWhile isWs).reverse)

/-- Whether `pat` occurs at the start of `cs`. -/
def hasPrefixSeq : List Char → List Char → Bool
  | _, [] => true
  | [], _ :: _ => false
  | c :: cs, p :: ps => c = p && hasPrefixSeq cs ps

/-- Whether `pat` occurs contiguously anywhere in `body`. -/
def hasSubSeq : List Char → List Char → Bool
  | [], pat => pat.isEmpty
  | c :: cs, pat => hasPrefixSeq (c :: cs) pat || hasSubSeq cs pat

/-- Model of JavaScript `text.includes(pat)`: contiguous substring test
(the empty pattern is always contained). -/
def strContains (text pat : String) : Bool :=
  hasSubSeq text.data pat.data

/-- Effective port of a ping monitor, `monitor.port || 80` in the ping
runner (`src/unnamed/part_006`): a missing port and port `0` are both falsy
in JavaScript and default to `80`. -/
def effectivePort (m : Monitor) : Nat :=
  match m.port with
  | none => 80
  | some p => if p = 0 then 80 else p

/-- The ping runner `runPingMonitor` (`src/unnamed/part_006`): one TCP
connection attempt to `host` at the effective port; `connect` gives
`succeeded`, `timeout` gives `failed` with error `"Connection timed out"`,
a socket error gives `failed` with the error text.  `tcp` is the observed
network behaviour, `t0`/`t1` the wall-clock readings at entry and at outcome
construction (`Date.now()`), so `responseTime = t1 - t0`.  The constructor
does not set `startTime`. -/
def runPingMonitor (tcp : String → Nat → ConnResult) (t0 t1 : Nat)
    (m : Monitor) : MonitorStatus :=
  match tcp m.host (effectivePort m) with
  | ConnResult.connected =>
      ⟨m.id, StatusType.succeeded, t1 - t0, none, none⟩
  | ConnResult.timedOut =>
      ⟨m.id, StatusType.failed, t1 - t0, some "Connection timed out", none⟩
  | ConnResult.errored msg =>
      ⟨m.id, StatusType.failed, t1 - t0, some msg, none⟩

/-- Keyword loop of `runWebsiteMonitor` in
`src/packages/engine/src/runners/website-monitor.ts`: starting from the
provisional `succeeded`, scan the keywords in order; the first keyword that
is truthy (non-empty) and not contained verbatim in the body flips the
status to `failed` with the keyword named in the error, and the loop breaks.
No trimming is performed in this revision. -/
def checkKeywords (body : String) : List String → StatusType × Option String
  | [] => (StatusType.succeeded, none)
  | k :: rest =>
      if k ≠ "" ∧ strContains body k = false then
        (StatusType.failed, some ("Keyword \"" ++ k ++ "\" not found in response"))
      else
        checkKeywords body rest

/-- The website runner `runWebsiteMonitor`
(`src/packages/engine/src/runners/website-monitor.ts`).  A thrown `fetch`
gives `failed` with the error message; otherwise, if `checkStatus` is truthy
and the status code is outside `[200, 300)`, the outcome is `failed` with
`"HTTP status code <code>"`; otherwise the keyword loop decides.  `r` is the
observed HTTP exchange, `t0`/`t1` the wall-clock readings, and `startTime`
is not set by the constructor. -/
def runWebsiteMonitor (r : HttpResult) (t0 t1 : Nat) (m : Monitor) :
    MonitorStatus :=
  match r with
  | HttpResult.failure msg =>
      ⟨m.id, StatusType.failed, t1 - t0, some msg, none⟩
  | HttpResult.success code body =>
      if m.checkStatus = true ∧ (code < 200 ∨ 300 ≤ code) then
        ⟨m.id, StatusType.failed, t1 - t0,
          some ("HTTP status code " ++ toString code), none⟩
      else
        ⟨m.id, (checkKeywords body m.keywords).1, t1 - t0,
          (checkKeywords body m.keywords).2, none⟩

/-- Keyword loop of the second revision of the website runner
(`src/unnamed/part_006`, lines 142–160): a keyword is only checked when it
is truthy and its trimmed form is non-empty, and the containment test uses
the trimmed keyword; blank/whitespace-only entries are skipped.  The error
still names the raw keyword. -/
def checkKeywordsV2 (body : String) : List String → StatusType × Option String
  | [] => (StatusType.succeeded, none)
  | k :: rest =>
      if k ≠ "" ∧ strTrim k ≠ "" ∧ strContains body (strTrim k) = false then
        (StatusType.failed, some ("Keyword \"" ++ k ++ "\" not found in response"))
      else
        checkKeywordsV2 body rest

/-- The second revision of the website runner (`src/unnamed/part_006`,
`runWebsiteMonitor`): identical to `runWebsiteMonitor` except for the
keyword loop, which trims keywords and skips blank entries. -/
def runWebsiteMonitorV2 (r : HttpResult) (t0 t1 : Nat) (m : Monitor) :
    MonitorStatus :=
  match r with
  | HttpResult.failure msg =>
      ⟨m.id, StatusType.failed, t1 - t0, some msg, none⟩
  | HttpResult.success code body =>
      if m.checkStatus = true ∧ (code < 200 ∨ 300 ≤ code) then
        ⟨m.id, StatusType.failed, t1 - t0,
          some ("HTTP status code " ++ toString code), none⟩
      else
        ⟨m.id, (checkKeywordsV2 body m.keywords).1, t1 - t0,
          (checkKeywordsV2 body m.keywords).2, none⟩

/-- Persisting an outcome through the Result Sink
(`AppDataSource.getRepository(MonitorStatus).save(status)`): TypeORM's
`@CreateDateColumn` on `startTime`
(`src/packages/engine/src/entities/MonitorStatus.ts`, lines 31–32) assigns
the row-insertion timestamp `tPersist` to the record. -/
def saveStatus (tPersist : Nat) (st : MonitorStatus) : MonitorStatus :=
  ⟨st.monitorId, st.status, st.responseTime, st.error, some tPersist⟩

/-- Scheduler bookkeeping (`src/packages/engine/src/index.ts`): `armed` is
the `activeMonitors` map of monitor id to the pending timer, represented by
the timer's delay in milliseconds (the `setTimeout` argument); `recorded` is
the append-only list of outcomes the engine has written through the Result
Sink. -/
structure EngineState where
  armed : List (String × Nat)
  recorded : List MonitorStatus
deriving DecidableEq

/-- `activeMonitors.get(k)`: the delay of the pending timer for `k`, if
any. -/
def lookupKey : List (String × Nat) → String → Option Nat
  | [], _ => none
  | p :: rest, k => if p.1 = k then some p.2 else lookupKey rest k

/-- `activeMonitors.delete(k)`: remove the entry for `k`. -/
def eraseKey (k : String) : List (String × Nat) → List (String × Nat)
  | [] => []
  | p :: rest => if p.1 = k then eraseKey k rest else p :: eraseKey k rest

/-- `activeMonitors.set(k, v)`: replace or insert the entry for `k`
(observably equivalent to `Map.set`; entry order is irrelevant to every
property below). -/
def setKey (k : String) (v : Nat) (l : List (String × Nat)) :
    List (String × Nat) :=
  (k, v) :: eraseKey k l

/-- `Set.delete(x)` on a list of ids. -/
def setDelete (x : String) : List String → List String
  | [] => []
  | y :: rest => if y = x then setDelete x rest else y :: setDelete x rest

/-- Environment observed by one firing: the TCP behaviour per host/port,
the HTTP exchange per URL, and the wall-clock readings at check start and
completion. -/
structure Env where
  tcp : String → Nat → ConnResult
  http : String → HttpResult
  t0 : Nat
  t1 : Nat

/-- `runMonitorCheck` (`src/packages/engine/src/index.ts`, lines 18–43):
dispatch on `monitor.type`; `"ping"` and `"website"` run the matching runner
and save the outcome; an unknown type logs an error and returns without
recording anything.  Runner and save errors are caught inside this function
and never propagate. -/
def runMonitorCheck (env : Env) (m : Monitor) (s : EngineState) :
    EngineState :=
  if m.type = "ping" then
    ⟨s.armed, s.recorded ++ [runPingMonitor env.tcp env.t0 env.t1 m]⟩
  else if m.type = "website" then
    ⟨s.armed, s.recorded ++ [runWebsiteMonitor (env.http m.url) env.t0 env.t1 m]⟩
  else
    s

/-- One firing of the `runAndReschedule` callback installed by
`scheduleMonitor` (`src/packages/engine/src/index.ts`, lines 54–85, first
revision).  `store` models `repo.findOne`; `staleMon` is the `monitor`
closure variable captured when the timer was first scheduled; `mid` is the
`monitorId` argument.  A fresh read that finds nothing deletes the id from
`activeMonitors` and records nothing; a successful read dispatches
`runMonitorCheck` on the fresh definition and re-arms with
`current.periodicity * 1000` milliseconds; a thrown read takes the catch
path, which re-arms with `monitor.periodicity` — the stale value and, as in
the source, with no `* 1000`. -/
def runAndReschedule (env : Env) (store : String → Except String (Option Monitor))
    (staleMon : Monitor) (mid : String) (s : EngineState) : EngineState :=
  match store mid with
  | Except.ok none =>
      ⟨eraseKey mid s.armed, s.recorded⟩
  | Except.ok (some current) =>
      let s1 := runMonitorCheck env current s
      ⟨setKey mid (current.periodicity * 1000) s1.armed, s1.recorded⟩
  | Except.error _ =>
      ⟨setKey mid staleMon.periodicity s.armed, s.recorded⟩

/-- One firing of the second revision of `runAndReschedule`
(`src/packages/engine/src/index.ts`, lines 229–254): the check runs first,
with the `monitor` captured at scheduling time, and only afterwards is the
definition re-fetched — a found definition re-arms with the fresh
`periodicity * 1000`, a missing one deletes the id, and a thrown re-fetch
re-arms with the stale `periodicity * 1000`. -/
def runAndRescheduleV2 (env : Env)
    (store : String → Except String (Option Monitor))
    (staleMon : Monitor) (s : EngineState) : EngineState :=
  let s1 := runMonitorCheck env staleMon s
  match store staleMon.id with
  | Except.ok (some refreshed) =>
      ⟨setKey staleMon.id (refreshed.periodicity * 1000) s1.armed, s1.recorded⟩
  | Except.ok none =>
      ⟨eraseKey staleMon.id s1.armed, s1.recorded⟩
  | Except.error _ =>
      ⟨setKey staleMon.id (staleMon.periodicity * 1000) s1.armed, s1.recorded⟩

/-- `scheduleMonitor`'s immediate effect on the armed map
(`src/packages/engine/src/index.ts`, lines 48–52 and 87–89): clear any
existing timer for the id and arm a zero-delay first firing. -/
def scheduleMonitorModel (m : Monitor) (armed : List (String × Nat)) :
    List (String × Nat) :=
  setKey m.id 0 armed

/-- The body of `discoverMonitors` after the fresh list has been obtained
(`src/packages/engine/src/index.ts`, lines 104–128): walk the listed
monitors, scheduling each id that is not in the snapshot of currently armed
ids and deleting every listed id from the snapshot; afterwards cancel every
id left in the snapshot. -/
def discoverLoop : List Monitor → List String → List (String × Nat) →
    List (String × Nat)
  | [], remaining, armed =>
      remaining.foldl (fun a mid => eraseKey mid a) armed
  | m :: rest, remaining, armed =>
      discoverLoop rest (setDelete m.id remaining)
        (if m.id ∈ remaining then armed else scheduleMonitorModel m armed)

/-- One successful discovery tick (`discoverMonitors`,
`src/packages/engine/src/index.ts`, lines 97–132): reconcile the armed map
against the freshly listed monitors; the tick itself records nothing. -/
def discoverMonitors (monitors : List Monitor) (s : EngineState) :
    EngineState :=
  ⟨discoverLoop monitors (s.armed.map Prod.fst) s.armed, s.recorded⟩

/-- Specification-side description of the keyword scan of
`runWebsiteMonitor`: the first keyword in list order that is non-empty and
not contained verbatim in the body, if any. -/
def firstMissingKeyword (body : String) : List String → Option String
  | [] => none
  | k :: rest =>
      if k ≠ "" ∧ strContains body k = false then some k
      else firstMissingKeyword body rest

/-- Concrete website monitor used to exercise the status-code branch. -/
def mC1 : Monitor :=
  ⟨"m1", "web", "website", 5, "", none, "https://example.test/", true, []⟩

/-- Concrete website monitor whose only keyword carries surrounding
whitespace. -/
def mC2cex : Monitor :=
  ⟨"m2", "web", "website", 5, "", none, "https://example.test/", false,
    [" foo "]⟩

/-- Concrete website monitor with two verbatim keywords. -/
def mC2w : Monitor :=
  ⟨"m2w", "web", "website", 5, "", none, "https://example.test/", false,
    ["hello", "zzz"]⟩

/-- Concrete website monitor whose only keyword is whitespace-only. -/
def mC3cex : Monitor :=
  ⟨"m3", "web", "website", 5, "", none, "https://example.test/", false,
    ["  "]⟩

/-- Concrete website monitor used for the blank-keyword witness. -/
def mC3w : Monitor :=
  ⟨"m3w", "web", "website", 5, "", none, "https://example.test/", false, []⟩

/-- Network behaviour where every TCP connection is refused and every HTTP
request returns 200 with body "welcome"; the check runs from time 0 to 7. -/
def envRefused : Env :=
  ⟨fun _ _ => ConnResult.errored "connect ECONNREFUSED",
    fun _ => HttpResult.success 200 "welcome", 0, 7⟩

/-- Concrete ping monitor for the deleted-at-firing scenario. -/
def mC4 : Monitor :=
  ⟨"m4", "ping", "ping", 5, "127.0.0.1", some 8081, "", false, []⟩

/-- Store in which every monitor read finds nothing (deleted). -/
def storeNone : String → Except String (Option Monitor) :=
  fun _ => Except.ok none

/-- Stale ping definition captured at scheduling time for the edited-type
scenario. -/
def mC5stale : Monitor :=
  ⟨"m5", "p", "ping", 5, "127.0.0.1", some 8081, "", false, []⟩

/-- Fresh definition of the same monitor after an edit: now a website
monitor with periodicity 9. -/
def mC5fresh : Monitor :=
  ⟨"m5", "w", "website", 9, "", none, "https://example.test/", true, []⟩

/-- Store returning the freshly edited definition `mC5fresh`. -/
def storeC5 : String → Except String (Option Monitor) :=
  fun _ => Except.ok (some mC5fresh)

/-- Concrete ping monitor with periodicity 5 for the error re-arm
scenario. -/
def mC6 : Monitor :=
  ⟨"m6", "p", "ping", 5, "127.0.0.1", some 8081, "", false, []⟩

/-- Store whose reads throw (store unavailable). -/
def storeErr : String → Except String (Option Monitor) :=
  fun _ => Except.error "store unavailable"

/-- Concrete monitor record with a corrupt type. -/
def mC7 : Monitor := ⟨"m7", "x", "ftp", 5, "", none, "", false, []⟩

/-- Store returning the corrupt-typed record. -/
def storeC7 : String → Except String (Option Monitor) :=
  fun _ => Except.ok (some mC7)

/-- Concrete listed monitor set for a discovery tick: ids "a" (new) and
"b" (already armed). -/
def msC8 : List Monitor :=
  [⟨"a", "a", "ping", 5, "h", some 1, "", false, []⟩,
    ⟨"b", "b", "ping", 6, "h", some 1, "", false, []⟩]

/-- Armed state before the discovery tick: "b" armed with delay 500 and
"c" armed with delay 700 but no longer listed. -/
def sC8 : EngineState := ⟨[("b", 500), ("c", 700)], []⟩

/-- Concrete website monitor for the startTime scenario. -/
def mC9 : Monitor :=
  ⟨"m9", "web", "website", 5, "", none, "https://example.test/", false, []⟩

/-- Concrete ping monitor with no port configured. -/
def mC10 : Monitor :=
  ⟨"m10", "p", "ping", 5, "localhost", none, "", false, []⟩

/-- TCP behaviour that accepts connections only on port 80. -/
def tcpC10 : String → Nat → ConnResult :=
  fun _ p => if p = 80 then ConnResult.connected
    else ConnResult.errored "refused"

theorem lookupKey_eraseKey_self (k : String) (l : List (String × Nat)) :
    lookupKey (eraseKey k l) k = none := by
  induction l with
  | nil => rfl
  | cons p rest ih =>
      by_cases h : p.1 = k
      · simp [eraseKey, h, ih]
      · simp [eraseKey, h, lookupKey, ih]

theorem lookupKey_eraseKey_ne (k k' : String) (l : List (String × Nat))
    (h : k' ≠ k) : lookupKey (eraseKey k l) k' = lookupKey l k' := by
  induction l with
  | nil => rfl
  | cons p rest ih =>
      by_cases hp : p.1 = k
      · simp [eraseKey, hp, lookupKey, Ne.symm h, ih]
      · by_cases hq : p.1 = k'
        · simp [eraseKey, hp, lookupKey, hq, h]
        · simp [eraseKey, hp, lookupKey, hq, ih]

theorem lookupKey_setKey_self (k : String) (v : Nat)
    (l : List (String × Nat)) : lookupKey (setKey k v l) k = some v := by
  simp [setKey, lookupKey]

theorem lookupKey_setKey_ne (k k' : String) (v : Nat)
    (l : List (String × Nat)) (h : k' ≠ k) :
    lookupKey (setKey k v l) k' = lookupKey l k' := by
  have hk : k ≠ k' := fun e => h e.symm
  simp [setKey, lookupKey, hk, lookupKey_eraseKey_ne k k' l h]

theorem lookupKey_eq_none_iff (l : List (String × Nat)) (k : String) :
    lookupKey l k = none ↔ k ∉ l.map Prod.fst := by
  induction l with
  | nil => simp [lookupKey]
  | cons p rest ih =>
      by_cases h : p.1 = k
      · simp [lookupKey, h]
      · have hk : k ≠ p.1 := fun e => h e.symm
        simp [lookupKey, h, ih, hk]

theorem mem_setDelete (x y : String) (l : List String) :
    y ∈ setDelete x l ↔ y ∈ l ∧ y ≠ x := by
  induction l with
  | nil => simp [setDelete]
  | cons z rest ih =>
      by_cases h : z = x
      · subst h
        rw [show setDelete z (z :: rest) = setDelete z rest from by
          simp [setDelete], ih]
        by_cases hy : y = z
        · subst hy
          simp
        · simp [hy]
      · rw [show setDelete x (z :: rest) = z :: setDelete x rest from by
          simp [setDelete, h], List.mem_cons, ih, List.mem_cons]
        by_cases hy : y = z
        · subst hy
          simp [h]
        · simp [hy]

theorem lookupKey_foldl_erase (remaining : List String)
    (armed : List (String × Nat)) (k : String) :
    lookupKey (remaining.foldl (fun a mid => eraseKey mid a) armed) k =
      if k ∈ remaining then none else lookupKey armed k := by
  induction remaining generalizing armed with
  | nil => simp
  | cons r rest ih =>
      simp only [List.foldl_cons]
      rw [ih]
      by_cases h : k = r
      · subst h
        by_cases h2 : k ∈ rest
        · simp [h2]
        · simp [h2, lookupKey_eraseKey_self]
      · by_cases h2 : k ∈ rest
        · simp [h2, h]
        · simp [h2, h, lookupKey_eraseKey_ne r k armed h]

theorem lookupKey_discoverLoop (monitors : List Monitor)
    (remaining : List String) (armed : List (String × Nat)) (k : String)
    (hnd : (monitors.map Monitor.id).Nodup) :
    lookupKey (discoverLoop monitors remaining armed) k =
      if k ∈ monitors.map Monitor.id then
        (if k ∈ remaining then lookupKey armed k else some 0)
      else
        (if k ∈ remaining then none else lookupKey armed k) := by
  induction monitors generalizing remaining armed with
  | nil =>
      simpa [discoverLoop] using lookupKey_foldl_erase remaining armed k
  | cons m rest ih =>
      have hnd2 : (rest.map Monitor.id).Nodup :=
        (List.nodup_cons.mp (by simpa using hnd)).2
      have hm : m.id ∉ rest.map Monitor.id :=
        (List.nodup_cons.mp (by simpa using hnd)).1
      rw [discoverLoop, ih _ _ hnd2]
      by_cases hk : k = m.id
      · have hkrest : k ∉ List.map Monitor.id rest := by
          rw [hk]
          exact hm
        have hrem : k ∉ setDelete m.id remaining := by
          rw [hk]
          simp [mem_setDelete]
        have hmem : k ∈ List.map Monitor.id (m :: rest) := by
          rw [hk]
          simp
        rw [if_neg hkrest, if_neg hrem, if_pos hmem]
        by_cases hin : m.id ∈ remaining
        · have hin2 : k ∈ remaining := by
            rw [hk]
            exact hin
          rw [if_pos hin, if_pos hin2]
        · have hin2 : k ∉ remaining := by
            rw [hk]
            exact hin
          rw [if_neg hin, if_neg hin2, hk]
          exact lookupKey_setKey_self m.id 0 armed
      · have hrem : k ∈ setDelete m.id remaining ↔ k ∈ remaining := by
          simp [mem_setDelete, hk]
        have harm :
            lookupKey
              (if m.id ∈ remaining then armed else scheduleMonitorModel m armed)
              k = lookupKey armed k := by
          by_cases hin : m.id ∈ remaining
          · rw [if_pos hin]
          · rw [if_neg hin]
            exact lookupKey_setKey_ne m.id k 0 armed hk
        rw [harm]
        by_cases hr : k ∈ rest.map Monitor.id
        · simp [hr, hrem, hk]
        · simp [hr, hrem, hk]

theorem checkKeywords_eq_firstMissing (body : String) (kws : List String) :
    checkKeywords body kws =
      match firstMissingKeyword body kws with
      | some k =>
          (StatusType.failed,
            some ("Keyword \"" ++ k ++ "\" not found in response"))
      | none => (StatusType.succeeded, none) := by
  induction kws with
  | nil => rfl
  | cons k rest ih =>
      by_cases h : k ≠ "" ∧ strContains body k = false
      · simp [checkKeywords, firstMissingKeyword, h]
      · simp [checkKeywords, firstMissingKeyword, h, ih]

theorem firstMissing_eq_none_iff (body : String) (kws : List String) :
    firstMissingKeyword body kws = none ↔
      ∀ k ∈ kws, k = "" ∨ strContains body k = true := by
  induction kws with
  | nil => simp [firstMissingKeyword]
  | cons k rest ih =>
      by_cases h : k ≠ "" ∧ strContains body k = false
      · simp only [firstMissingKeyword, if_pos h]
        constructor
        · intro hc
          exact absurd hc (by simp)
        · intro hall
          rcases hall k (by simp) with h1 | h2
          · exact absurd h1 h.1
          · rw [h.2] at h2
            exact absurd h2 (by simp)
      · simp only [firstMissingKeyword, if_neg h, ih]
        constructor
        · intro hall k2 hk2
          rcases List.mem_cons.mp hk2 with he | hm
          · subst he
            by_cases hke : k2 = ""
            · exact Or.inl hke
            · right
              by_cases hcb : strContains body k2 = true
              · exact hcb
              · exact absurd ⟨hke, by simpa using hcb⟩ h
          · exact hall k2 hm
        · intro hall k2 hk2
          exact hall k2 (List.mem_cons_of_mem k hk2)

theorem firstMissing_some_spec (body : String) (kws : List String)
    (k : String) (h : firstMissingKeyword body kws = some k) :
    k ∈ kws ∧ k ≠ "" ∧ strContains body k = false := by
  induction kws with
  | nil => exact absurd h (by simp [firstMissingKeyword])
  | cons a rest ih =>
      by_cases hc : a ≠ "" ∧ strContains body a = false
      · simp only [firstMissingKeyword, if_pos hc] at h
        obtain rfl : a = k := by injection h
        exact ⟨by simp, hc.1, hc.2⟩
      · simp only [firstMissingKeyword, if_neg hc] at h
        obtain ⟨h1, h2, h3⟩ := ih h
        exact ⟨List.mem_cons_of_mem a h1, h2, h3⟩

theorem checkKeywords_failed_iff (body : String) (kws : List String) :
    (checkKeywords body kws).1 = StatusType.failed ↔
      ∃ k, k ∈ kws ∧ k ≠ "" ∧ strContains body k = false := by
  rw [checkKeywords_eq_firstMissing]
  rcases hf : firstMissingKeyword body kws with _ | k
  · rw [firstMissing_eq_none_iff] at hf
    constructor
    · intro hc
      exact absurd hc (by simp)
    · rintro ⟨k, hk, hne, hnc⟩
      rcases hf k hk with h1 | h2
      · exact absurd h1 hne
      · rw [hnc] at h2
        exact absurd h2 (by simp)
  · constructor
    · intro _
      obtain ⟨hmem, hne, hnc⟩ := firstMissing_some_spec body kws k hf
      exact ⟨k, hmem, hne, hnc⟩
    · intro _
      rfl

theorem checkKeywords_append_missing (body : String) (pre : List String)
    (k : String) (post : List String)
    (hpre : ∀ x ∈ pre, x = "" ∨ strContains body x = true)
    (hk : k ≠ "") (hmiss : strContains body k = false) :
    checkKeywords body (pre ++ k :: post) =
      (StatusType.failed,
        some ("Keyword \"" ++ k ++ "\" not found in response")) := by
  induction pre with
  | nil => simp [checkKeywords, hk, hmiss]
  | cons a rest ih =>
      have ha := hpre a (by simp)
      have hcond : ¬(a ≠ "" ∧ strContains body a = false) := by
        rcases ha with h1 | h2
        · intro hc
          exact hc.1 h1
        · intro hc
          rw [h2] at hc
          exact absurd hc.2 (by simp)
      simp only [List.cons_append, checkKeywords, if_neg hcond]
      exact ih fun x hx => hpre x (List.mem_cons_of_mem a hx)

theorem checkKeywords_blank (body : String) (pre post : List String) :
    checkKeywords body (pre ++ "" :: post) = checkKeywords body (pre ++ post) := by
  induction pre with
  | nil =>
      have hcond : ¬(("" : String) ≠ "" ∧ strContains body "" = false) := by
        intro hc
        exact hc.1 rfl
      simp [checkKeywords, hcond]
  | cons a rest ih =>
      by_cases h : a ≠ "" ∧ strContains body a = false
      · simp [checkKeywords, h]
      · simp [checkKeywords, h, ih]

theorem checkKeywordsV2_blank (body : String) (k : String)
    (pre post : List String) (hb : strTrim k = "") :
    checkKeywordsV2 body (pre ++ k :: post) =
      checkKeywordsV2 body (pre ++ post) := by
  induction pre with
  | nil =>
      have hcond :
          ¬(k ≠ "" ∧ strTrim k ≠ "" ∧ strContains body (strTrim k) = false) := by
        intro hc
        exact hc.2.1 hb
      simp [checkKeywordsV2, hcond]
  | cons a rest ih =>
      by_cases h : a ≠ "" ∧ strTrim a ≠ "" ∧ strContains body (strTrim a) = false
      · simp [checkKeywordsV2, h]
      · simp [checkKeywordsV2, h, ih]

example : strContains "foo bar" "foo" = true := by decide
example : strContains "foo bar" "  " = false := by decide
example : strTrim " foo " = "foo" := by decide
example : strTrim "  " = "" := by decide
example :
    (runWebsiteMonitor (HttpResult.success 404 "hello")
      0 7 ⟨"m", "l", "website", 5, "", none, "u", true, ["hello"]⟩).error =
      some "HTTP status code 404" := by decide
example :
    (runWebsiteMonitor (HttpResult.success 200 "hello")
      0 7 ⟨"m", "l", "website", 5, "", none, "u", true, ["  "]⟩).status =
      StatusType.failed := by decide
example :
    (runWebsiteMonitorV2 (HttpResult.success 200 "hello")
      0 7 ⟨"m", "l", "website", 5, "", none, "u", true, ["  "]⟩).status =
      StatusType.succeeded := by decide

/-- Claim C1: for every website monitor with `checkStatus = true`, an HTTP
response whose numeric status code lies outside `[200, 300)` produces a
`failed` outcome whose error is exactly `"HTTP status code <code>"`, and no
keyword evaluation is performed — the outcome is identical under every
keywords configuration.  Proved for both revisions of the website runner. -/
theorem claim_c1_status_code (code : Nat) (body : String) (t0 t1 : Nat)
    (m : Monitor) (hcs : m.checkStatus = true)
    (hcode : code < 200 ∨ 300 ≤ code) :
    (runWebsiteMonitor (HttpResult.success code body) t0 t1 m).status =
      StatusType.failed ∧
    (runWebsiteMonitor (HttpResult.success code body) t0 t1 m).error =
      some ("HTTP status code " ++ toString code) ∧
    (∀ kws, runWebsiteMonitor (HttpResult.success code body) t0 t1
        { m with keywords := kws } =
      runWebsiteMonitor (HttpResult.success code body) t0 t1 m) ∧
    (runWebsiteMonitorV2 (HttpResult.success code body) t0 t1 m).status =
      StatusType.failed ∧
    (runWebsiteMonitorV2 (HttpResult.success code body) t0 t1 m).error =
      some ("HTTP status code " ++ toString code) ∧
    (∀ kws, runWebsiteMonitorV2 (HttpResult.success code body) t0 t1
        { m with keywords := kws } =
      runWebsiteMonitorV2 (HttpResult.success code body) t0 t1 m) := by
  have hcond : m.checkStatus = true ∧ (code < 200 ∨ 300 ≤ code) :=
    ⟨hcs, hcode⟩
  refine ⟨?_, ?_, ?_, ?_, ?_, ?_⟩
  · simp only [runWebsiteMonitor, if_pos hcond]
  · simp only [runWebsiteMonitor, if_pos hcond]
  · intro kws
    simp only [runWebsiteMonitor]
    rw [if_pos hcond, if_pos hcond]
  · simp only [runWebsiteMonitorV2, if_pos hcond]
  · simp only [runWebsiteMonitorV2, if_pos hcond]
  · intro kws
    simp only [runWebsiteMonitorV2]
    rw [if_pos hcond, if_pos hcond]

/-- Witness for C1: a 404 response on a `checkStatus` monitor fails with
`"HTTP status code 404"`, even with a keyword that the body contains. -/
theorem claim_c1_witness :
    mC1.checkStatus = true ∧ ((404 : Nat) < 200 ∨ 300 ≤ 404) ∧
    (runWebsiteMonitor (HttpResult.success 404 "hello") 0 7 mC1).status =
      StatusType.failed ∧
    (runWebsiteMonitor (HttpResult.success 404 "hello") 0 7 mC1).error =
      some ("HTTP status code " ++ toString 404) ∧
    runWebsiteMonitor (HttpResult.success 404 "hello") 0 7
        { mC1 with keywords := ["hello"] } =
      runWebsiteMonitor (HttpResult.success 404 "hello") 0 7 mC1 :=
  have h := claim_c1_status_code 404 "hello" 0 7 mC1 (by decide) (by decide)
  ⟨by decide, by decide, h.1, h.2.1, h.2.2.1 ["hello"]⟩

/-- Counterexample to C2 as stated: the runner at
`src/packages/engine/src/runners/website-monitor.ts` does not trim keywords.
The monitor's only keyword `" foo "` is non-blank and its trimmed form
`"foo"` is present in the body `"foo bar"`, so the claim predicts
`succeeded`; the runner compares `" foo "` verbatim and yields `failed`. -/
theorem claim_c2_counterexample :
    (runWebsiteMonitor (HttpResult.success 200 "foo bar") 0 7 mC2cex).status =
      StatusType.failed ∧
    mC2cex.keywords = [" foo "] ∧
    mC2cex.checkStatus = false ∧
    strTrim " foo " = "foo" ∧
    strContains "foo bar" "foo" = true := by decide

/-- Claim C2 (amended): in the runner at
`src/packages/engine/src/runners/website-monitor.ts` keywords are compared
verbatim, with no trimming.  For a response that passes the status check,
the outcome is `failed` iff at least one non-empty keyword is absent
verbatim from the body; the error names the first such keyword in list
order; when none is missing the outcome is `succeeded` with no error; and
nothing after the first missing keyword affects the outcome.  (The
`src/unnamed/part_006` revision instead trims keywords and skips blank
entries, as the original claim describes.) -/
theorem claim_c2_amended (code : Nat) (body : String) (t0 t1 : Nat)
    (m : Monitor)
    (hpass : ¬(m.checkStatus = true ∧ (code < 200 ∨ 300 ≤ code))) :
    ((runWebsiteMonitor (HttpResult.success code body) t0 t1 m).status =
        StatusType.failed ↔
      ∃ k, k ∈ m.keywords ∧ k ≠ "" ∧ strContains body k = false) ∧
    (∀ k, firstMissingKeyword body m.keywords = some k →
      (runWebsiteMonitor (HttpResult.success code body) t0 t1 m).error =
        some ("Keyword \"" ++ k ++ "\" not found in response")) ∧
    (firstMissingKeyword body m.keywords = none →
      (runWebsiteMonitor (HttpResult.success code body) t0 t1 m).status =
        StatusType.succeeded ∧
      (runWebsiteMonitor (HttpResult.success code body) t0 t1 m).error =
        none) ∧
    (∀ pre k post post2, m.keywords = pre ++ k :: post →
      (∀ x ∈ pre, x = "" ∨ strContains body x = true) →
      k ≠ "" → strContains body k = false →
      runWebsiteMonitor (HttpResult.success code body) t0 t1
          { m with keywords := pre ++ k :: post2 } =
        runWebsiteMonitor (HttpResult.success code body) t0 t1 m) := by
  have hst : (runWebsiteMonitor (HttpResult.success code body) t0 t1 m).status
      = (checkKeywords body m.keywords).1 := by
    simp only [runWebsiteMonitor, if_neg hpass]
  have herr : (runWebsiteMonitor (HttpResult.success code body) t0 t1 m).error
      = (checkKeywords body m.keywords).2 := by
    simp only [runWebsiteMonitor, if_neg hpass]
  refine ⟨?_, ?_, ?_, ?_⟩
  · rw [hst, checkKeywords_failed_iff]
  · intro k hk
    rw [herr, checkKeywords_eq_firstMissing, hk]
  · intro hn
    rw [hst, herr, checkKeywords_eq_firstMissing, hn]
    exact ⟨rfl, rfl⟩
  · intro pre k post post2 hkw hpre hk hmiss
    simp only [runWebsiteMonitor]
    rw [if_neg hpass, if_neg hpass, hkw,
      checkKeywords_append_missing body pre k post2 hpre hk hmiss,
      checkKeywords_append_missing body pre k post hpre hk hmiss]

/-- Witness for the amended C2: on a 200 response with body
`"hello world"`, the failed-iff-missing-verbatim-keyword equivalence holds
for a monitor with keywords `["hello", "zzz"]`. -/
theorem claim_c2_witness :
    ¬(mC2w.checkStatus = true ∧ ((200 : Nat) < 200 ∨ 300 ≤ 200)) ∧
    ((runWebsiteMonitor (HttpResult.success 200 "hello world") 0 7
        mC2w).status = StatusType.failed ↔
      ∃ k, k ∈ mC2w.keywords ∧ k ≠ "" ∧
        strContains "hello world" k = false) :=
  ⟨by decide, (claim_c2_amended 200 "hello world" 0 7 mC2w (by decide)).1⟩

/-- Counterexample to C3 as stated: in the runner at
`src/packages/engine/src/runners/website-monitor.ts` a whitespace-only
keyword entry `"  "` is truthy and compared verbatim, so against the body
`"hello"` it causes a `failed` outcome naming that entry — it is not
ignored. -/
theorem claim_c3_counterexample :
    (runWebsiteMonitor (HttpResult.success 200 "hello") 0 7 mC3cex).status =
      StatusType.failed ∧
    mC3cex.keywords = ["  "] ∧
    strTrim "  " = "" ∧
    (runWebsiteMonitor (HttpResult.success 200 "hello") 0 7 mC3cex).error =
      some ("Keyword \"" ++ "  " ++ "\" not found in response") := by decide

/-- Claim C3 (amended): in the runner at
`src/packages/engine/src/runners/website-monitor.ts` only an entry that is
the empty string is ignored (behaving as if absent from the list); a
whitespace-only entry is compared verbatim and can cause failure.  In the
`src/unnamed/part_006` revision, every entry that is blank after trimming
is ignored, as the original claim states. -/
theorem claim_c3_amended :
    (∀ (r : HttpResult) (t0 t1 : Nat) (m : Monitor) (pre post : List String),
      runWebsiteMonitor r t0 t1 { m with keywords := pre ++ "" :: post } =
        runWebsiteMonitor r t0 t1 { m with keywords := pre ++ post }) ∧
    (∀ (r : HttpResult) (t0 t1 : Nat) (m : Monitor) (k : String)
        (pre post : List String), strTrim k = "" →
      runWebsiteMonitorV2 r t0 t1 { m with keywords := pre ++ k :: post } =
        runWebsiteMonitorV2 r t0 t1 { m with keywords := pre ++ post }) := by
  constructor
  · intro r t0 t1 m pre post
    cases r with
    | failure msg => rfl
    | success code body =>
        simp only [runWebsiteMonitor]
        by_cases h : m.checkStatus = true ∧ (code < 200 ∨ 300 ≤ code)
        · rw [if_pos h, if_pos h]
        · rw [if_neg h, if_neg h, checkKeywords_blank]
  · intro r t0 t1 m k pre post hb
    cases r with
    | failure msg => rfl
    | success code body =>
        simp only [runWebsiteMonitorV2]
        by_cases h : m.checkStatus = true ∧ (code < 200 ∨ 300 ≤ code)
        · rw [if_pos h, if_pos h]
        · rw [if_neg h, if_neg h, checkKeywordsV2_blank body k pre post hb]

/-- Witness for the amended C3: in the `part_006` revision, inserting the
whitespace-only keyword `" "` between `"a"` and `"b"` leaves the outcome
unchanged. -/
theorem claim_c3_witness :
    strTrim " " = "" ∧
    runWebsiteMonitorV2 (HttpResult.success 200 "ab") 0 7
        { mC3w with keywords := ["a"] ++ " " :: ["b"] } =
      runWebsiteMonitorV2 (HttpResult.success 200 "ab") 0 7
        { mC3w with keywords := ["a"] ++ ["b"] } :=
  ⟨by decide, claim_c3_amended.2 (HttpResult.success 200 "ab") 0 7 mC3w " "
    ["a"] ["b"] (by decide)⟩

/-- Counterexample to C4 as stated: in the second revision of
`runAndReschedule` (`src/packages/engine/src/index.ts`, lines 229–254), a
firing whose re-read finds the monitor deleted has already run the check
with the stale definition and recorded its outcome: starting from an empty
record list, the firing itself produces one CheckOutcome, where the claim
requires zero. -/
theorem claim_c4_counterexample :
    (runAndRescheduleV2 envRefused storeNone mC4
      ⟨[("m4", 5000)], []⟩).recorded.length = 1 ∧
    lookupKey (runAndRescheduleV2 envRefused storeNone mC4
      ⟨[("m4", 5000)], []⟩).armed "m4" = none := by decide

/-- Claim C4 (amended): in the first revision of `runAndReschedule`
(lines 54–65) the claim holds exactly: when the firing's re-read finds no
definition, the id is dropped from the armed map, no further timer is
armed, and no CheckOutcome is recorded by that firing.  In the second
revision the id is likewise dropped and no timer re-armed, but the firing
first runs the check with the stale definition and records that outcome. -/
theorem claim_c4_amended (env : Env)
    (store store2 : String → Except String (Option Monitor))
    (stale : Monitor) (mid : String) (s : EngineState)
    (h1 : store mid = Except.ok none)
    (h2 : store2 stale.id = Except.ok none) :
    (runAndReschedule env store stale mid s).recorded = s.recorded ∧
    (runAndReschedule env store stale mid s).armed = eraseKey mid s.armed ∧
    lookupKey (runAndReschedule env store stale mid s).armed mid = none ∧
    lookupKey (runAndRescheduleV2 env store2 stale s).armed stale.id = none ∧
    (runAndRescheduleV2 env store2 stale s).recorded =
      (runMonitorCheck env stale s).recorded := by
  refine ⟨?_, ?_, ?_, ?_, ?_⟩
  · simp only [runAndReschedule, h1]
  · simp only [runAndReschedule, h1]
  · simp only [runAndReschedule, h1]
    exact lookupKey_eraseKey_self mid s.armed
  · simp only [runAndRescheduleV2, h2]
    exact lookupKey_eraseKey_self stale.id _
  · simp only [runAndRescheduleV2, h2]

/-- Witness for the amended C4: with a store in which the monitor has been
deleted, the first-revision firing leaves the record list unchanged and
drops the timer. -/
theorem claim_c4_witness :
    storeNone "m4" = Except.ok none ∧
    (runAndReschedule envRefused storeNone mC4 "m4"
      ⟨[("m4", 5000)], []⟩).recorded = [] ∧
    lookupKey (runAndReschedule envRefused storeNone mC4 "m4"
      ⟨[("m4", 5000)], []⟩).armed "m4" = none :=
  have h := claim_c4_amended envRefused storeNone storeNone mC4 "m4"
    ⟨[("m4", 5000)], []⟩ rfl rfl
  ⟨rfl, h.1, h.2.2.1⟩

/-- Counterexample to C5 as stated: in the second revision of
`runAndReschedule`, the check is dispatched by the definition captured at
scheduling time, not the freshly re-read one.  The monitor was scheduled as
a ping monitor and edited to a website monitor with periodicity 9: the
firing records the ping outcome (`failed`, connection refused) although a
dispatch by the fresh definition would record the website outcome
(`succeeded`); only the re-arm delay (9000 ms) uses the fresh value. -/
theorem claim_c5_counterexample :
    mC5stale.type = "ping" ∧ mC5fresh.type = "website" ∧
    storeC5 "m5" = Except.ok (some mC5fresh) ∧
    (runAndRescheduleV2 envRefused storeC5 mC5stale
      ⟨[("m5", 5000)], []⟩).recorded =
      [⟨"m5", StatusType.failed, 7, some "connect ECONNREFUSED", none⟩] ∧
    (runMonitorCheck envRefused mC5fresh ⟨[("m5", 5000)], []⟩).recorded =
      [⟨"m5", StatusType.succeeded, 7, none, none⟩] ∧
    lookupKey (runAndRescheduleV2 envRefused storeC5 mC5stale
      ⟨[("m5", 5000)], []⟩).armed "m5" = some 9000 :=
  ⟨rfl, rfl, rfl, by decide, by decide, by decide⟩

/-- Claim C5 (amended): on a successful firing, the first revision of
`runAndReschedule` dispatches the check on the freshly re-read definition
and re-arms with the fresh `periodicity * 1000` milliseconds, independently
of the stale closure monitor and of the delay used for the previous timer;
in the second revision only the re-arm delay uses the freshly re-read
periodicity, while the check is dispatched on the definition captured at
scheduling time. -/
theorem claim_c5_amended (env : Env)
    (store store2 : String → Except String (Option Monitor))
    (stale stale2 : Monitor) (mid : String) (s : EngineState)
    (cur fresh : Monitor)
    (h1 : store mid = Except.ok (some cur))
    (h2 : store2 stale.id = Except.ok (some fresh)) :
    (runAndReschedule env store stale mid s).recorded =
      (runMonitorCheck env cur s).recorded ∧
    lookupKey (runAndReschedule env store stale mid s).armed mid =
      some (cur.periodicity * 1000) ∧
    runAndReschedule env store stale2 mid s =
      runAndReschedule env store stale mid s ∧
    lookupKey (runAndRescheduleV2 env store2 stale s).armed stale.id =
      some (fresh.periodicity * 1000) ∧
    (runAndRescheduleV2 env store2 stale s).recorded =
      (runMonitorCheck env stale s).recorded := by
  refine ⟨?_, ?_, ?_, ?_, ?_⟩
  · simp only [runAndReschedule, h1]
  · simp only [runAndReschedule, h1]
    exact lookupKey_setKey_self mid _ _
  · simp only [runAndReschedule, h1]
  · simp only [runAndRescheduleV2, h2]
    exact lookupKey_setKey_self stale.id _ _
  · simp only [runAndRescheduleV2, h2]

/-- Witness for the amended C5: the first-revision firing on the edited
monitor records exactly what a dispatch on the fresh website definition
records, and re-arms with the fresh periodicity. -/
theorem claim_c5_witness :
    storeC5 "m5" = Except.ok (some mC5fresh) ∧
    (runAndReschedule envRefused storeC5 mC5stale "m5" ⟨[], []⟩).recorded =
      (runMonitorCheck envRefused mC5fresh ⟨[], []⟩).recorded ∧
    lookupKey (runAndReschedule envRefused storeC5 mC5stale "m5"
      ⟨[], []⟩).armed "m5" = some (mC5fresh.periodicity * 1000) :=
  have h := claim_c5_amended envRefused storeC5 storeC5 mC5stale mC5stale
    "m5" ⟨[], []⟩ mC5fresh mC5fresh rfl rfl
  ⟨rfl, h.1, h.2.1⟩

/-- Claim C6: when the store read at a firing throws, both revisions still
re-arm the monitor, so it is never left permanently unscheduled — but the
first revision's catch path (`src/packages/engine/src/index.ts`, line 81)
passes `monitor.periodicity` to `setTimeout` without the `* 1000` used on
every other scheduling path: with periodicity 5 the timer is re-armed after
5 milliseconds, not the 5 seconds (5000 ms) the claim requires.  The second
revision's catch path (line 251) multiplies by 1000 and re-arms after
5000 ms. -/
theorem claim_c6_error_rearm_units :
    storeErr "m6" = Except.error "store unavailable" ∧
    mC6.periodicity = 5 ∧
    lookupKey (runAndReschedule envRefused storeErr mC6 "m6" ⟨[], []⟩).armed
      "m6" = some 5 ∧
    (5 : Nat) ≠ 5 * 1000 ∧
    lookupKey (runAndRescheduleV2 envRefused storeErr mC6 ⟨[], []⟩).armed
      "m6" = some 5000 ∧
    (runAndReschedule envRefused storeErr mC6 "m6" ⟨[], []⟩).recorded = [] :=
  ⟨rfl, rfl, by decide, by decide, by decide, rfl⟩

/-- Claim C7: at a firing whose freshly re-read definition has a type
matching neither "ping" nor "website", `runMonitorCheck` returns after
logging without recording any outcome, and the firing still re-arms the
timer with the current periodicity (first revision of `runAndReschedule`,
the claim's cited code). -/
theorem claim_c7_unknown_type (env : Env)
    (store : String → Except String (Option Monitor))
    (stale cur : Monitor) (mid : String) (s : EngineState)
    (h : store mid = Except.ok (some cur))
    (hp : cur.type ≠ "ping") (hw : cur.type ≠ "website") :
    (runAndReschedule env store stale mid s).recorded = s.recorded ∧
    lookupKey (runAndReschedule env store stale mid s).armed mid =
      some (cur.periodicity * 1000) := by
  have hrc : runMonitorCheck env cur s = s := by
    simp only [runMonitorCheck, if_neg hp, if_neg hw]
  constructor
  · simp only [runAndReschedule, h, hrc]
  · simp only [runAndReschedule, h, hrc]
    exact lookupKey_setKey_self mid _ _

/-- Witness for C7: a record with type "ftp" fires as a no-op and is
re-armed after its periodicity. -/
theorem claim_c7_witness :
    storeC7 "m7" = Except.ok (some mC7) ∧
    mC7.type = "ftp" ∧
    (runAndReschedule envRefused storeC7 mC7 "m7" ⟨[], []⟩).recorded = [] ∧
    lookupKey (runAndReschedule envRefused storeC7 mC7 "m7" ⟨[], []⟩).armed
      "m7" = some (mC7.periodicity * 1000) :=
  have h := claim_c7_unknown_type envRefused storeC7 mC7 mC7 "m7" ⟨[], []⟩
    rfl (by decide) (by decide)
  ⟨rfl, rfl, h.1, h.2⟩

/-- Claim C8: a successful discovery tick reconciles the armed map with the
freshly listed monitor set (listed ids are distinct, being primary keys):
every listed id not yet armed is armed with a zero-delay first firing;
every armed-and-listed id keeps its existing timer delay untouched; every
armed id absent from the list is cancelled and removed; afterwards an id is
armed iff it is listed; and the tick itself records no outcome. -/
theorem claim_c8_discovery (monitors : List Monitor) (s : EngineState)
    (hnd : (monitors.map Monitor.id).Nodup) :
    (∀ id, id ∈ monitors.map Monitor.id →
      lookupKey s.armed id = none →
      lookupKey (discoverMonitors monitors s).armed id = some 0) ∧
    (∀ id d, id ∈ monitors.map Monitor.id →
      lookupKey s.armed id = some d →
      lookupKey (discoverMonitors monitors s).armed id = some d) ∧
    (∀ id, id ∉ monitors.map Monitor.id →
      lookupKey (discoverMonitors monitors s).armed id = none) ∧
    (∀ id, (lookupKey (discoverMonitors monitors s).armed id).isSome ↔
      id ∈ monitors.map Monitor.id) ∧
    (discoverMonitors monitors s).recorded = s.recorded := by
  have key : ∀ id, lookupKey (discoverMonitors monitors s).armed id =
      if id ∈ monitors.map Monitor.id then
        (if id ∈ s.armed.map Prod.fst then lookupKey s.armed id else some 0)
      else
        (if id ∈ s.armed.map Prod.fst then none else lookupKey s.armed id) :=
    fun id => lookupKey_discoverLoop monitors _ _ id hnd
  refine ⟨?_, ?_, ?_, ?_, rfl⟩
  · intro id hmem hnone
    rw [key id, if_pos hmem,
      if_neg ((lookupKey_eq_none_iff s.armed id).mp hnone)]
  · intro id d hmem hsome
    have hin : id ∈ s.armed.map Prod.fst := by
      by_contra hc
      rw [← lookupKey_eq_none_iff, hsome] at hc
      cases hc
    rw [key id, if_pos hmem, if_pos hin, hsome]
  · intro id hmem
    rw [key id, if_neg hmem]
    by_cases hin : id ∈ s.armed.map Prod.fst
    · rw [if_pos hin]
    · rw [if_neg hin]
      exact (lookupKey_eq_none_iff s.armed id).mpr hin
  · intro id
    rw [key id]
    by_cases hmem : id ∈ monitors.map Monitor.id
    · rw [if_pos hmem]
      by_cases hin : id ∈ s.armed.map Prod.fst
      · rw [if_pos hin]
        have hne : lookupKey s.armed id ≠ none :=
          fun hc => ((lookupKey_eq_none_iff s.armed id).mp hc) hin
        exact ⟨fun _ => hmem, fun _ => Option.isSome_iff_ne_none.mpr hne⟩
      · rw [if_neg hin]
        simp [hmem]
    · rw [if_neg hmem]
      by_cases hin : id ∈ s.armed.map Prod.fst
      · rw [if_pos hin]
        simp [hmem]
      · rw [if_neg hin, (lookupKey_eq_none_iff s.armed id).mpr hin]
        simp [hmem]

/-- Witness for C8: discovering ids "a" (new) and "b" (already armed with
delay 500) while "c" (armed with delay 700) is no longer listed arms "a"
at delay 0, keeps "b" at 500, removes "c", and records nothing. -/
theorem claim_c8_witness :
    (msC8.map Monitor.id).Nodup ∧
    lookupKey (discoverMonitors msC8 sC8).armed "a" = some 0 ∧
    lookupKey (discoverMonitors msC8 sC8).armed "b" = some 500 ∧
    lookupKey (discoverMonitors msC8 sC8).armed "c" = none ∧
    (discoverMonitors msC8 sC8).recorded = sC8.recorded :=
  have h := claim_c8_discovery msC8 sC8 (by decide)
  ⟨by decide, h.1 "a" (by decide) (by decide),
    h.2.1 "b" 500 (by decide) (by decide), h.2.2.1 "c" (by decide),
    h.2.2.2.2⟩

/-- Counterexample to C9 as stated: a check that starts at time 0 and
completes at time 5, persisted at time 6, is recorded with
`startTime = 6` — the `@CreateDateColumn` insertion timestamp — not the
probe start 0. -/
theorem claim_c9_counterexample :
    (saveStatus 6 (runWebsiteMonitor (HttpResult.success 200 "ok") 0 5
      mC9)).startTime = some 6 ∧
    (runWebsiteMonitor (HttpResult.success 200 "ok") 0 5 mC9).responseTime =
      5 ∧
    some (6 : Nat) ≠ some (0 : Nat) := by decide

/-- Claim C9 (amended): a recorded CheckOutcome's `startTime` equals the
timestamp at which the record is persisted (assigned by the
`@CreateDateColumn` on insert), not the timestamp at which the probe began:
no runner sets `startTime` (their `Date.now()` readings feed only
`responseTime`), and persisting at `tPersist` stamps exactly `tPersist`. -/
theorem claim_c9_amended :
    (∀ tPersist st, (saveStatus tPersist st).startTime = some tPersist) ∧
    (∀ r t0 t1 m, (runWebsiteMonitor r t0 t1 m).startTime = none) ∧
    (∀ r t0 t1 m, (runWebsiteMonitorV2 r t0 t1 m).startTime = none) ∧
    (∀ tcp t0 t1 m, (runPingMonitor tcp t0 t1 m).startTime = none) := by
  refine ⟨fun tPersist st => rfl, ?_, ?_, ?_⟩
  · intro r t0 t1 m
    cases r with
    | failure msg => rfl
    | success code body =>
        simp only [runWebsiteMonitor]
        by_cases h : m.checkStatus = true ∧ (code < 200 ∨ 300 ≤ code)
        · rw [if_pos h]
        · rw [if_neg h]
  · intro r t0 t1 m
    cases r with
    | failure msg => rfl
    | success code body =>
        simp only [runWebsiteMonitorV2]
        by_cases h : m.checkStatus = true ∧ (code < 200 ∨ 300 ≤ code)
        · rw [if_pos h]
        · rw [if_neg h]
  · intro tcp t0 t1 m
    rcases htcp : tcp m.host (effectivePort m) with _ | _ | msg <;>
      simp [runPingMonitor, htcp]

/-- Claim C10: a ping monitor whose `port` is missing or `0` is not
rejected and does not fail outright: `monitor.port || 80` defaults the
port to 80, the TCP attempt targets port 80, and the outcome is the normal
succeeded/failed outcome of that attempt (`succeeded` exactly when the
connection completes). -/
theorem claim_c10_default_port (tcp : String → Nat → ConnResult)
    (t0 t1 : Nat) (m : Monitor) (h : m.port = none ∨ m.port = some 0) :
    effectivePort m = 80 ∧
    runPingMonitor tcp t0 t1 m =
      runPingMonitor tcp t0 t1 { m with port := some 80 } ∧
    ((runPingMonitor tcp t0 t1 m).status = StatusType.succeeded ↔
      tcp m.host 80 = ConnResult.connected) ∧
    (runPingMonitor tcp t0 t1 m).monitorId = m.id := by
  have hp : effectivePort m = 80 := by
    rcases h with h | h <;> simp [effectivePort, h]
  refine ⟨hp, ?_, ?_, ?_⟩
  · have hp2 : effectivePort { m with port := some 80 } = 80 := by
      simp [effectivePort]
    rcases htcp : tcp m.host 80 with _ | _ | msg <;>
      simp [runPingMonitor, hp, hp2, htcp]
  · rcases htcp : tcp m.host 80 with _ | _ | msg <;>
      simp [runPingMonitor, hp, htcp]
  · rcases htcp : tcp m.host (effectivePort m) with _ | _ | msg <;>
      simp [runPingMonitor, htcp]

/-- Witness for C10: a monitor with no configured port against a network
that accepts connections only on port 80. -/
theorem claim_c10_witness :
    mC10.port = none ∧
    effectivePort mC10 = 80 ∧
    ((runPingMonitor tcpC10 0 3 mC10).status = StatusType.succeeded ↔
      tcpC10 mC10.host 80 = ConnResult.connected) :=
  have h := claim_c10_default_port tcpC10 0 3 mC10 (Or.inl rfl)
  ⟨rfl, h.1, h.2.2.1⟩
